import Mathlib

/-!
Verification of `tic_tac_toe_database/init_db.py`, a one-shot SQLite schema
initializer for a tic-tac-toe application.

The script is embedded shallowly: the database is a record of optional tables
(absent or present with rows), each table's rows mirroring the columns declared
by the DDL in `create_tables`.  Every table this script creates has a fixed
schema, so a present table is modelled by its row list; `CREATE TABLE IF NOT
EXISTS` keys on table presence, `CREATE INDEX IF NOT EXISTS` on index-name
presence, `INSERT OR IGNORE` on the primary-key column, and
`SELECT MAX(version)` by a fold over the ledger rows.  Fallible SQL execution
(a statement naming a missing table) is an `Except`.  Timestamps
(`CURRENT_TIMESTAMP` defaults) are an integer parameter `t`.
-/

/-- `SCHEMA_VERSION = 1` from init_db.py. -/
def SCHEMA_VERSION : Int := 1

/-- `DB_NAME = "myapp.db"` from init_db.py. -/
def DB_NAME : String := "myapp.db"

/-- A row of `schema_migrations (version INTEGER PRIMARY KEY, applied_at TIMESTAMP DEFAULT CURRENT_TIMESTAMP)`. -/
structure MigrationRow where
  version : Int
  applied_at : Option Int
deriving DecidableEq, Repr

/-- A row of `users (id, username, password_hash, score, created_at)`. -/
structure UserRow where
  id : Int
  username : String
  password_hash : String
  score : Int
  created_at : Int
deriving DecidableEq, Repr

/-- A row of `games (id, player_x_id, player_o_id, winner_id, status, started_at, finished_at)`. -/
structure GameRow where
  id : Int
  player_x_id : Int
  player_o_id : Int
  winner_id : Option Int
  status : String
  started_at : Option Int
  finished_at : Option Int
deriving DecidableEq, Repr

/-- A row of `moves (id, game_id, user_id, row, col, move_num, created_at)`. -/
structure MoveRow where
  id : Int
  game_id : Int
  user_id : Int
  row : Int
  col : Int
  move_num : Int
  created_at : Option Int
deriving DecidableEq, Repr

/-- A row of `scores (user_id, total_games, wins, losses, draws)`. -/
structure ScoreRow where
  user_id : Int
  total_games : Int
  wins : Int
  losses : Int
  draws : Int
deriving DecidableEq, Repr

/-- The state of the SQLite database file: each table the script's DDL touches
is either absent (`none`) or present with its current rows, plus the set of
existing index names. -/
structure DBState where
  migrations : Option (List MigrationRow)
  users : Option (List UserRow)
  games : Option (List GameRow)
  moves : Option (List MoveRow)
  scores : Option (List ScoreRow)
  indexes : List String
deriving DecidableEq, Repr

/-- A freshly created (empty) SQLite database: no tables, no indices. -/
def emptyDB : DBState := ⟨none, none, none, none, none, []⟩

/-- `sqlite3.connect(DB_NAME)` inside `get_conn`: opens the existing database
file, creating an empty database when the file does not exist. -/
def get_conn (file : Option DBState) : DBState := file.getD emptyDB

/-- `CREATE INDEX IF NOT EXISTS n`: adds the index name when absent. -/
def addIndexName (n : String) (idxs : List String) : List String :=
  if n ∈ idxs then idxs else idxs ++ [n]

/-- `INSERT OR IGNORE INTO schema_migrations (version) VALUES (SCHEMA_VERSION)`
at timestamp `t`: `version` is the primary key, so the insert is ignored when a
row with that version is already present; otherwise the new row's `applied_at`
takes the `CURRENT_TIMESTAMP` default. -/
def insertOrIgnoreVersion (t : Int) (rows : List MigrationRow) : List MigrationRow :=
  if rows.any (fun r => r.version == SCHEMA_VERSION) then rows
  else rows ++ [{ version := SCHEMA_VERSION, applied_at := some t }]

/-- `create_tables(conn)` from init_db.py at timestamp `t`: issues
`CREATE TABLE IF NOT EXISTS` for schema_migrations, users, games, moves and
scores, `CREATE INDEX IF NOT EXISTS` for idx_users_username, idx_games_status
and idx_moves_gameid, then records the schema version with `INSERT OR IGNORE`
and commits.  Each `IF NOT EXISTS` leaves a present table (its rows included)
untouched and creates an absent one empty; the statements touch disjoint parts
of the state, so their sequential composition is written as one record. -/
def create_tables (t : Int) (s : DBState) : DBState :=
  { migrations := some (insertOrIgnoreVersion t (s.migrations.getD []))
    users := some (s.users.getD [])
    games := some (s.games.getD [])
    moves := some (s.moves.getD [])
    scores := some (s.scores.getD [])
    indexes := addIndexName "idx_moves_gameid"
      (addIndexName "idx_games_status"
        (addIndexName "idx_users_username" s.indexes)) }

/-- `SELECT MAX(version) FROM schema_migrations`: the maximum over the ledger
rows, `none` (SQL NULL) on an empty ledger. -/
def maxVersion : List MigrationRow → Option Int
  | [] => none
  | r :: rs =>
    match maxVersion rs with
    | none => some r.version
    | some m => some (max r.version m)

/-- `is_schema_up_to_date(conn)` from init_db.py.  When the `schema_migrations`
table is absent, `cursor.execute` raises `sqlite3.OperationalError`; otherwise
`fetchone()` yields the one aggregate row `(MAX(version),)` — a non-empty tuple,
hence truthy — and the function returns `row[0] == SCHEMA_VERSION`, i.e. whether
the maximum recorded version equals `SCHEMA_VERSION` (`None == 1` is `False`). -/
def is_schema_up_to_date (s : DBState) : Except String Bool :=
  match s.migrations with
  | none => .error "no such table: schema_migrations"
  | some rows => .ok (decide (maxVersion rows = some SCHEMA_VERSION))

/-- The observable steps of a run of `initialize_db`. -/
inductive Event
  | openConn
  | checkLedger
  | applyDDL
  | recordVersion
  | writeConnFile
  | writeEnvFile
deriving DecidableEq, Repr

/-- A metadata file written by `initialize_db`: path and full contents. -/
structure FileEntry where
  path : String
  content : String
deriving DecidableEq, Repr

/-- The outcome of a completed run of `initialize_db`: the database state and
the metadata files written. -/
structure InitResult where
  db : DBState
  files : List FileEntry
deriving DecidableEq, Repr

/-- The contents written to `db_connection.txt`: the sqlite3 connect call, the
connection string and the database file path (`dbPath` is `DB_PATH`, the
absolute path of `DB_NAME`). -/
def db_connection_txt (dbPath : String) : String :=
  "# SQLite connection methods:\n" ++
  "# Python: sqlite3.connect(\x27" ++ DB_NAME ++ "\x27)\n" ++
  "# Connection string: sqlite:///" ++ dbPath ++ "\n" ++
  "# File path: " ++ dbPath ++ "\n"

/-- The contents written to `db_visualizer/sqlite.env`: the `SQLITE_DB`
environment variable. -/
def sqlite_env (dbPath : String) : String :=
  "export SQLITE_DB=\"" ++ dbPath ++ "\"\n"

/-- `initialize_db()` from init_db.py, run at timestamp `t` in a directory
where the database file is `file` (`none` when no file exists).  Returns the
trace of steps performed together with either the uncaught Python exception or
the final database state and the metadata files written.  The run opens the
connection (creating the file if absent), calls `is_schema_up_to_date`, calls
`create_tables` exactly when that returned `False`, and then writes
`db_connection.txt` and `db_visualizer/sqlite.env`; an exception propagates and
aborts the run at the point it is raised. -/
def initialize_db (dbPath : String) (t : Int) (file : Option DBState) :
    List Event × Except String InitResult :=
  let conn := get_conn file
  match is_schema_up_to_date conn with
  | .error e => ([.openConn, .checkLedger], .error e)
  | .ok true =>
    ([.openConn, .checkLedger, .writeConnFile, .writeEnvFile],
     .ok ⟨conn,
       [⟨"db_connection.txt", db_connection_txt dbPath⟩,
        ⟨"db_visualizer/sqlite.env", sqlite_env dbPath⟩]⟩)
  | .ok false =>
    ([.openConn, .checkLedger, .applyDDL, .recordVersion, .writeConnFile, .writeEnvFile],
     .ok ⟨create_tables t conn,
       [⟨"db_connection.txt", db_connection_txt dbPath⟩,
        ⟨"db_visualizer/sqlite.env", sqlite_env dbPath⟩]⟩)

/-- Is `st` one of the statuses allowed by the `CHECK` constraint of `games`:
`CHECK(status IN ('waiting', 'active', 'finished'))`? -/
def statusOk (st : String) : Bool :=
  st == "waiting" || st == "active" || st == "finished"

/-- Does a `moves` row satisfy the `CHECK` constraints of `moves`:
`CHECK(row BETWEEN 0 AND 2)` and `CHECK(col BETWEEN 0 AND 2)`? -/
def moveRowOk (r : MoveRow) : Bool :=
  (0 ≤ r.row && r.row ≤ 2) && (0 ≤ r.col && r.col ≤ 2)

/-- The next `INTEGER PRIMARY KEY AUTOINCREMENT` value: one more than the
largest id in use. -/
def nextId (ids : List Int) : Int := ids.foldr max 0 + 1

/-- The data-manipulation statements an application can run against the schema
created by `create_tables`: inserts into users, games, moves and scores, and
row deletions from moves and games. -/
inductive DbOp
  | insertUser (username password_hash : String)
  | insertGame (player_x_id player_o_id : Int) (winner_id : Option Int) (status : String)
  | insertMove (game_id user_id row col move_num : Int)
  | insertScore (user_id : Int)
  | deleteMove (id : Int)
  | deleteGame (id : Int)
deriving DecidableEq, Repr

/-- Model of SQLite executing one statement at timestamp `t` against the
schema created by `create_tables`.  A statement that fails — missing table,
`UNIQUE` or `PRIMARY KEY` violation, a failed `CHECK` constraint, or a
violated `FOREIGN KEY` (`PRAGMA foreign_keys = ON` is set by `get_conn`) —
leaves the database unchanged; a successful insert appends the row with its
`DEFAULT` values filled in, and a delete on `games` cascades to `moves`
through `ON DELETE CASCADE`. -/
def applyOp (t : Int) (op : DbOp) (s : DBState) : DBState :=
  match op with
  | .insertUser un ph =>
    match s.users with
    | none => s
    | some rows =>
      if rows.any (fun r => r.username == un) then s
      else { s with users := some (rows ++ [⟨nextId (rows.map UserRow.id), un, ph, 0, t⟩]) }
  | .insertGame px po w st =>
    match s.users, s.games with
    | some us, some rows =>
      if statusOk st && us.any (fun r => r.id == px) && us.any (fun r => r.id == po)
          && (match w with | none => true | some wid => us.any (fun r => r.id == wid)) then
        { s with games := some (rows ++ [⟨nextId (rows.map GameRow.id), px, po, w, st, some t, none⟩]) }
      else s
    | _, _ => s
  | .insertMove g u r c m =>
    match s.games, s.users, s.moves with
    | some gs, some us, some rows =>
      if ((0 ≤ r && r ≤ 2) && (0 ≤ c && c ≤ 2)) && gs.any (fun x => x.id == g)
          && us.any (fun x => x.id == u) then
        { s with moves := some (rows ++ [⟨nextId (rows.map MoveRow.id), g, u, r, c, m, some t⟩]) }
      else s
    | _, _, _ => s
  | .insertScore u =>
    match s.users, s.scores with
    | some us, some rows =>
      if us.any (fun x => x.id == u) && !rows.any (fun x => x.user_id == u) then
        { s with scores := some (rows ++ [⟨u, 0, 0, 0, 0⟩]) }
      else s
    | _, _ => s
  | .deleteMove i =>
    match s.moves with
    | none => s
    | some rows => { s with moves := some (rows.filter (fun x => !(x.id == i))) }
  | .deleteGame i =>
    match s.games with
    | none => s
    | some gs =>
      { s with games := some (gs.filter (fun x => !(x.id == i))),
               moves := (s.moves.map (fun ms => ms.filter (fun x => !(x.game_id == i)))) }

/-- A sequence of timestamped statements executed in order. -/
def applyOps (ops : List (Int × DbOp)) (s : DBState) : DBState :=
  ops.foldl (fun st p => applyOp p.1 p.2 st) s

/-- The row-level invariant the `CHECK` constraints of the schema express:
every `moves` row has `row` and `col` between 0 and 2, and every `games` row
has an allowed `status`. -/
def checkInvariant (s : DBState) : Bool :=
  (s.moves.getD []).all moveRowOk && (s.games.getD []).all (fun g => statusOk g.status)

/-! ### Helper lemmas -/

lemma addIndexName_mem_self (n : String) (idxs : List String) : n ∈ addIndexName n idxs := by
  unfold addIndexName
  split
  · assumption
  · simp

lemma addIndexName_mem_mono {m : String} (n : String) {idxs : List String} (h : m ∈ idxs) :
    m ∈ addIndexName n idxs := by
  unfold addIndexName
  split
  · exact h
  · simp [h]

lemma addIndexName_of_mem {n : String} {idxs : List String} (h : n ∈ idxs) :
    addIndexName n idxs = idxs := by
  simp [addIndexName, h]

lemma insertOrIgnoreVersion_has (t : Int) (rows : List MigrationRow) :
    (insertOrIgnoreVersion t rows).any (fun r => r.version == SCHEMA_VERSION) = true := by
  unfold insertOrIgnoreVersion
  split
  · assumption
  · simp

lemma insertOrIgnoreVersion_idem (t₁ t₂ : Int) (rows : List MigrationRow) :
    insertOrIgnoreVersion t₂ (insertOrIgnoreVersion t₁ rows) = insertOrIgnoreVersion t₁ rows := by
  have h := insertOrIgnoreVersion_has t₁ rows
  conv_lhs => rw [insertOrIgnoreVersion]
  simp [h]

lemma indexChain_idem (idxs : List String) :
    addIndexName "idx_moves_gameid" (addIndexName "idx_games_status" (addIndexName "idx_users_username"
      (addIndexName "idx_moves_gameid" (addIndexName "idx_games_status"
        (addIndexName "idx_users_username" idxs))))) =
    addIndexName "idx_moves_gameid" (addIndexName "idx_games_status"
      (addIndexName "idx_users_username" idxs)) := by
  have ha : "idx_users_username" ∈ addIndexName "idx_moves_gameid" (addIndexName "idx_games_status"
      (addIndexName "idx_users_username" idxs)) :=
    addIndexName_mem_mono _ (addIndexName_mem_mono _ (addIndexName_mem_self _ _))
  have hb : "idx_games_status" ∈ addIndexName "idx_moves_gameid" (addIndexName "idx_games_status"
      (addIndexName "idx_users_username" idxs)) :=
    addIndexName_mem_mono _ (addIndexName_mem_self _ _)
  have hc : "idx_moves_gameid" ∈ addIndexName "idx_moves_gameid" (addIndexName "idx_games_status"
      (addIndexName "idx_users_username" idxs)) :=
    addIndexName_mem_self _ _
  rw [addIndexName_of_mem ha, addIndexName_of_mem hb, addIndexName_of_mem hc]

lemma maxVersion_eq_none (rows : List MigrationRow) : maxVersion rows = none ↔ rows = [] := by
  cases rows with
  | nil => simp [maxVersion]
  | cons r rs =>
    simp only [maxVersion]
    cases maxVersion rs <;> simp

lemma maxVersion_upper (rows : List MigrationRow) :
    ∀ v : Int, maxVersion rows = some v → ∀ r ∈ rows, r.version ≤ v := by
  induction rows with
  | nil => intro v _ r hr; cases hr
  | cons r rs ih =>
    intro v hv x hx
    cases h : maxVersion rs with
    | none =>
      have hnil := (maxVersion_eq_none rs).mp h
      subst hnil
      simp only [maxVersion] at hv
      have hxr : x = r := by simpa using hx
      subst hxr
      injection hv with hv
      exact le_of_eq hv
    | some m =>
      simp only [maxVersion, h] at hv
      injection hv with hv
      rcases List.mem_cons.mp hx with h' | h'
      · subst h'
        exact le_trans (le_max_left x.version m) (le_of_eq hv)
      · exact le_trans (ih m h x h') (le_trans (le_max_right r.version m) (le_of_eq hv))

lemma insertOrIgnoreVersion_nodup (t : Int) (l : List MigrationRow)
    (h : (l.map MigrationRow.version).Nodup) :
    ((insertOrIgnoreVersion t l).map MigrationRow.version).Nodup := by
  unfold insertOrIgnoreVersion
  split
  · exact h
  · rename_i hany
    have hnot : SCHEMA_VERSION ∉ l.map MigrationRow.version := by
      simp only [List.any_eq_true, beq_iff_eq] at hany
      simp only [List.mem_map]
      rintro ⟨r, hr, hv⟩
      exact hany ⟨r, hr, hv⟩
    simp only [List.map_append, List.map_cons, List.map_nil]
    rw [List.nodup_append]
    refine ⟨h, List.nodup_singleton _, fun a ha => ?_⟩
    simp only [List.mem_singleton]
    intro hq
    subst hq
    exact hnot ha

lemma applyOp_preserves_checkInvariant (t : Int) (op : DbOp) (s : DBState)
    (h : checkInvariant s = true) : checkInvariant (applyOp t op s) = true := by
  rcases s with ⟨mig, us, gs, ms, sc, idx⟩
  simp only [checkInvariant, Bool.and_eq_true, List.all_eq_true] at h
  obtain ⟨hm, hg⟩ := h
  cases op with
  | insertUser un ph =>
    cases us with
    | none => simp_all [applyOp, checkInvariant, List.all_eq_true]
    | some rows =>
      simp only [applyOp]
      split
      · simp_all [checkInvariant, List.all_eq_true]
      · simp_all [checkInvariant, List.all_eq_true]
  | insertGame px po w st =>
    cases us with
    | none => simp_all [applyOp, checkInvariant, List.all_eq_true]
    | some urows =>
      cases gs with
      | none => simp_all [applyOp, checkInvariant, List.all_eq_true]
      | some grows =>
        simp only [applyOp]
        split
        · rename_i hc
          simp only [Bool.and_eq_true] at hc
          simp_all [checkInvariant, List.all_eq_true, List.mem_append]
        · simp_all [checkInvariant, List.all_eq_true]
  | insertMove g u r c m =>
    cases gs with
    | none => simp_all [applyOp, checkInvariant, List.all_eq_true]
    | some grows =>
      cases us with
      | none => simp_all [applyOp, checkInvariant, List.all_eq_true]
      | some urows =>
        cases ms with
        | none => simp_all [applyOp, checkInvariant, List.all_eq_true]
        | some mrows =>
          simp only [applyOp]
          split
          · rename_i hc
            simp only [Bool.and_eq_true] at hc
            simp_all [checkInvariant, List.all_eq_true, List.mem_append]
            have hb := hc.1.1
            simp only [moveRowOk, Bool.and_eq_true, decide_eq_true_eq]
            omega
          · simp_all [checkInvariant, List.all_eq_true]
  | insertScore u =>
    cases us with
    | none => simp_all [applyOp, checkInvariant, List.all_eq_true]
    | some urows =>
      cases sc with
      | none => simp_all [applyOp, checkInvariant, List.all_eq_true]
      | some srows =>
        simp only [applyOp]
        split
        · simp_all [checkInvariant, List.all_eq_true]
        · simp_all [checkInvariant, List.all_eq_true]
  | deleteMove i =>
    cases ms with
    | none => simp_all [applyOp, checkInvariant, List.all_eq_true]
    | some mrows =>
      simp only [applyOp]
      simp_all [checkInvariant, List.all_eq_true, List.mem_filter]
  | deleteGame i =>
    cases gs with
    | none => simp_all [applyOp, checkInvariant, List.all_eq_true]
    | some grows =>
      cases ms with
      | none =>
        simp_all [applyOp, checkInvariant, List.all_eq_true, List.mem_filter]
      | some mrows =>
        simp_all [applyOp, checkInvariant, List.all_eq_true, List.mem_filter]

lemma applyOps_preserves_checkInvariant (ops : List (Int × DbOp)) :
    ∀ s : DBState, checkInvariant s = true → checkInvariant (applyOps ops s) = true := by
  induction ops with
  | nil => intro s h; exact h
  | cons p ps ih =>
    intro s h
    exact ih _ (applyOp_preserves_checkInvariant p.1 p.2 s h)

/-! ### Claim theorems -/

/-- C1: the claim says a run of `initialize_db` that starts with no database
file completes and leaves the tables and indices in place.  In fact such a run
aborts: `get_conn` creates an empty database, and `is_schema_up_to_date` then
raises `sqlite3.OperationalError` ("no such table: schema_migrations") before
any DDL runs, so the run never completes and no table is created. -/
theorem initialize_db_fresh_run_raises (dbPath : String) (t : Int) :
    initialize_db dbPath t none =
      ([Event.openConn, Event.checkLedger], .error "no such table: schema_migrations") := rfl

/-- C3: applying the DDL is idempotent — running `create_tables` a second time
immediately afterwards (at any timestamp) succeeds and leaves the database
state, schema and data, identical to the state after the first run. -/
theorem create_tables_idempotent (t₁ t₂ : Int) (s : DBState) :
    create_tables t₂ (create_tables t₁ s) = create_tables t₁ s := by
  simp only [create_tables, Option.getD_some]
  rw [insertOrIgnoreVersion_idem, indexChain_idem]

/-- C4: every run of `create_tables` records the schema version — afterwards
the `schema_migrations` ledger contains a row whose `version` equals
`SCHEMA_VERSION` (1). -/
theorem create_tables_records_version (t : Int) (s : DBState) :
    ∃ rows, (create_tables t s).migrations = some rows ∧
      ∃ r ∈ rows, r.version = SCHEMA_VERSION := by
  refine ⟨insertOrIgnoreVersion t (s.migrations.getD []), rfl, ?_⟩
  have h := insertOrIgnoreVersion_has t (s.migrations.getD [])
  simpa [List.any_eq_true] using h

/-- C7: tables are created only if absent — when users, games, moves and scores
all already exist, `create_tables` leaves each of them (their presence and all
their rows) exactly as it was. -/
theorem create_tables_preserves_existing (t : Int) (s : DBState)
    (u : List UserRow) (g : List GameRow) (m : List MoveRow) (sc : List ScoreRow)
    (hu : s.users = some u) (hg : s.games = some g)
    (hm : s.moves = some m) (hsc : s.scores = some sc) :
    (create_tables t s).users = some u ∧ (create_tables t s).games = some g ∧
    (create_tables t s).moves = some m ∧ (create_tables t s).scores = some sc := by
  simp [create_tables, hu, hg, hm, hsc]

/-- Witness for C7: a database in which all four tables already exist. -/
theorem create_tables_preserves_existing_witness :
    (create_tables 0 ⟨none, some [], some [], some [], some [], []⟩).users = some [] ∧
    (create_tables 0 ⟨none, some [], some [], some [], some [], []⟩).games = some [] ∧
    (create_tables 0 ⟨none, some [], some [], some [], some [], []⟩).moves = some [] ∧
    (create_tables 0 ⟨none, some [], some [], some [], some [], []⟩).scores = some [] :=
  create_tables_preserves_existing 0 _ [] [] [] [] rfl rfl rfl rfl

/-- C2 counterexample: on a database file that exists but holds no tables yet
(for instance the file a crashed fresh run leaves behind) the ledger does not
record the current schema version, yet `initialize_db` applies no DDL — it
aborts inside `is_schema_up_to_date` — so "applies the DDL iff the ledger does
not record the current version" fails at this starting state. -/
theorem initialize_db_ddl_iff_cex :
    ¬ ((Event.applyDDL ∈ (initialize_db "/app/myapp.db" 0 (some emptyDB)).1) ↔
        ¬ ((emptyDB.migrations.getD []).any
            (fun r => r.version == SCHEMA_VERSION) = true)) := by
  decide

/-- C2 (amended): for every starting database state in which the
`schema_migrations` table exists, `initialize_db` applies the DDL statements
(runs `create_tables`) if and only if `is_schema_up_to_date` returned `False`. -/
theorem initialize_db_applies_ddl_iff (dbPath : String) (t : Int) (s : DBState)
    (rows : List MigrationRow) (h : s.migrations = some rows) :
    (Event.applyDDL ∈ (initialize_db dbPath t (some s)).1) ↔
      is_schema_up_to_date s = .ok false := by
  have hs : is_schema_up_to_date s = .ok (decide (maxVersion rows = some SCHEMA_VERSION)) := by
    simp [is_schema_up_to_date, h]
  cases hb : decide (maxVersion rows = some SCHEMA_VERSION) with
  | false => simp [initialize_db, get_conn, hs, hb]
  | true => simp [initialize_db, get_conn, hs, hb]

/-- Witness for C2 (amended): a database whose `schema_migrations` table exists
and is empty — the schema is outdated and the DDL is applied. -/
theorem initialize_db_applies_ddl_iff_witness :
    (Event.applyDDL ∈ (initialize_db "/w/myapp.db" 0
        (some ⟨some [], none, none, none, none, []⟩)).1) ↔
      is_schema_up_to_date ⟨some [], none, none, none, none, []⟩ = .ok false :=
  initialize_db_applies_ddl_iff "/w/myapp.db" 0 _ [] rfl

/-- C5: every successful run of `initialize_db` writes exactly the two metadata
files — `db_connection.txt` with the connection metadata and
`db_visualizer/sqlite.env` with the `SQLITE_DB` variable — whether or not the
schema was outdated. -/
theorem initialize_db_writes_two_files (dbPath : String) (t : Int)
    (file : Option DBState) (res : InitResult)
    (h : (initialize_db dbPath t file).2 = .ok res) :
    res.files = [⟨"db_connection.txt", db_connection_txt dbPath⟩,
                 ⟨"db_visualizer/sqlite.env", sqlite_env dbPath⟩] := by
  simp only [initialize_db] at h
  split at h
  · simp at h
  · simp at h
    subst h
    rfl
  · simp at h
    subst h
    rfl

/-- Witness for C5: a successful run on a database whose ledger already records
version 1 (the schema is up to date) writes exactly the two metadata files. -/
theorem initialize_db_writes_two_files_witness :
    (initialize_db "/w/myapp.db" 7
        (some ⟨some [⟨1, none⟩], none, none, none, none, []⟩)).2 =
      .ok ⟨⟨some [⟨1, none⟩], none, none, none, none, []⟩,
        [⟨"db_connection.txt", db_connection_txt "/w/myapp.db"⟩,
         ⟨"db_visualizer/sqlite.env", sqlite_env "/w/myapp.db"⟩]⟩ ∧
    InitResult.files ⟨⟨some [⟨1, none⟩], none, none, none, none, []⟩,
        [⟨"db_connection.txt", db_connection_txt "/w/myapp.db"⟩,
         ⟨"db_visualizer/sqlite.env", sqlite_env "/w/myapp.db"⟩]⟩ =
      [⟨"db_connection.txt", db_connection_txt "/w/myapp.db"⟩,
       ⟨"db_visualizer/sqlite.env", sqlite_env "/w/myapp.db"⟩] :=
  ⟨rfl, initialize_db_writes_two_files "/w/myapp.db" 7
    (some ⟨some [⟨1, none⟩], none, none, none, none, []⟩)
    ⟨⟨some [⟨1, none⟩], none, none, none, none, []⟩,
      [⟨"db_connection.txt", db_connection_txt "/w/myapp.db"⟩,
       ⟨"db_visualizer/sqlite.env", sqlite_env "/w/myapp.db"⟩]⟩ rfl⟩

/-- C6: the steps of every run of `initialize_db` happen in the stated order —
the trace is an ordered subsequence of: open the connection, check the ledger,
apply the DDL, record the version, write `db_connection.txt`, write
`db_visualizer/sqlite.env` — and every run starts by opening the connection and
then checking the ledger. -/
theorem initialize_db_steps_in_order (dbPath : String) (t : Int) (file : Option DBState) :
    List.Sublist (initialize_db dbPath t file).1
      [Event.openConn, Event.checkLedger, Event.applyDDL, Event.recordVersion,
       Event.writeConnFile, Event.writeEnvFile] ∧
    (initialize_db dbPath t file).1.take 2 = [Event.openConn, Event.checkLedger] := by
  have htrace : (initialize_db dbPath t file).1 = [Event.openConn, Event.checkLedger] ∨
      (initialize_db dbPath t file).1 =
        [Event.openConn, Event.checkLedger, Event.writeConnFile, Event.writeEnvFile] ∨
      (initialize_db dbPath t file).1 =
        [Event.openConn, Event.checkLedger, Event.applyDDL, Event.recordVersion,
         Event.writeConnFile, Event.writeEnvFile] := by
    simp only [initialize_db]
    split
    · exact Or.inl rfl
    · exact Or.inr (Or.inl rfl)
    · exact Or.inr (Or.inr rfl)
  rcases htrace with h | h | h <;> rw [h] <;> exact ⟨by decide, rfl⟩

/-- C8: when the `schema_migrations` table exists, `is_schema_up_to_date`
returns `True` exactly when the maximum recorded version equals
`SCHEMA_VERSION` (1); in particular it returns `False` on an empty ledger, and
`False` when every recorded version is greater than `SCHEMA_VERSION`, so the
DDL is re-applied in that case. -/
theorem is_schema_up_to_date_iff_max (s : DBState) (rows : List MigrationRow)
    (h : s.migrations = some rows) :
    (is_schema_up_to_date s = .ok true ↔ maxVersion rows = some SCHEMA_VERSION) ∧
    (rows = [] → is_schema_up_to_date s = .ok false) ∧
    ((∀ r ∈ rows, SCHEMA_VERSION < r.version) → is_schema_up_to_date s = .ok false) := by
  have hs : is_schema_up_to_date s = .ok (decide (maxVersion rows = some SCHEMA_VERSION)) := by
    simp [is_schema_up_to_date, h]
  refine ⟨?_, ?_, ?_⟩
  · rw [hs]
    constructor
    · intro hq
      simp only [Except.ok.injEq] at hq
      exact of_decide_eq_true hq
    · intro hq
      rw [decide_eq_true hq]
  · rintro rfl
    rw [hs]
    simp [maxVersion]
  · intro hall
    rw [hs]
    have hne : maxVersion rows ≠ some SCHEMA_VERSION := by
      intro hq
      cases rows with
      | nil => simp [maxVersion] at hq
      | cons r rs =>
        have h1 := maxVersion_upper (r :: rs) SCHEMA_VERSION hq r (List.mem_cons_self r rs)
        have h2 := hall r (List.mem_cons_self r rs)
        exact absurd (lt_of_lt_of_le h2 h1) (lt_irrefl _)
    rw [decide_eq_false hne]

/-- Witness for C8: a ledger holding only version 2 — the maximum is not 1,
so the schema counts as outdated. -/
theorem is_schema_up_to_date_iff_max_witness :
    (is_schema_up_to_date ⟨some [⟨2, none⟩], none, none, none, none, []⟩ = .ok true ↔
        maxVersion [⟨2, none⟩] = some SCHEMA_VERSION) ∧
    ([⟨2, none⟩] = ([] : List MigrationRow) →
        is_schema_up_to_date ⟨some [⟨2, none⟩], none, none, none, none, []⟩ = .ok false) ∧
    ((∀ r ∈ [(⟨2, none⟩ : MigrationRow)], SCHEMA_VERSION < r.version) →
        is_schema_up_to_date ⟨some [⟨2, none⟩], none, none, none, none, []⟩ = .ok false) :=
  is_schema_up_to_date_iff_max _ [⟨2, none⟩] rfl

/-- C9: the CHECK constraints of the schema created by `create_tables` hold as
an invariant — starting from a fresh database initialised by `create_tables`,
after any sequence of inserts and deletes every `moves` row has `row` and `col`
between 0 and 2 and every `games` row has status waiting, active or finished. -/
theorem schema_checks_invariant (t : Int) (ops : List (Int × DbOp)) :
    checkInvariant (applyOps ops (create_tables t emptyDB)) = true :=
  applyOps_preserves_checkInvariant ops _ rfl

/-- C10: the migrations ledger never acquires duplicate versions — `version` is
the primary key and is recorded with `INSERT OR IGNORE` — so `create_tables`
preserves distinctness of the recorded versions, and an immediate second run
adds no ledger row at all. -/
theorem schema_migrations_nodup (t₁ t₂ : Int) (s : DBState)
    (h : ((s.migrations.getD []).map MigrationRow.version).Nodup) :
    (((create_tables t₁ s).migrations.getD []).map MigrationRow.version).Nodup ∧
    (create_tables t₂ (create_tables t₁ s)).migrations = (create_tables t₁ s).migrations := by
  constructor
  · simp only [create_tables, Option.getD_some]
    exact insertOrIgnoreVersion_nodup t₁ _ h
  · simp only [create_tables, Option.getD_some]
    rw [insertOrIgnoreVersion_idem]

/-- Witness for C10: the empty database has a duplicate-free (empty) ledger. -/
theorem schema_migrations_nodup_witness :
    ((emptyDB.migrations.getD []).map MigrationRow.version).Nodup ∧
    ((((create_tables 3 emptyDB).migrations.getD []).map MigrationRow.version).Nodup ∧
      (create_tables 4 (create_tables 3 emptyDB)).migrations =
        (create_tables 3 emptyDB).migrations) :=
  ⟨by simp [emptyDB], schema_migrations_nodup 3 4 emptyDB (by simp [emptyDB])⟩
